import Mathlib

/-!
Shallow embedding of the netkeeper connectivity watchdog
(`netkeeper/bin/netkeeper.py`) and proofs about its recovery state
machine, health evaluator, reboot-wait protocol, service restart
orchestration and startup configuration loading.

The probing collaborator (`netkeeper.ext.multiping.multi_ping`) has no
source in the repository; it is modelled from the spec as an oracle
input: either a partition of the target list into responding and
non-responding targets, or a transport-level socket failure
(`MultiPingSocketError`).
-/

namespace Netkeeper

/-- Connection status of the device, as dispatched on by `run`:
the code distinguishes CONNECTED, CONNECTING, and a catch-all branch for
every other status code (Disconnected, Disconnecting, ConnectFailed,
ConnectStatusError, ConnectStatusNull and unrecognized codes). -/
inductive ConnectionStatus where
  | connected
  | connecting
  | disconnected
  | disconnecting
  | connectFailed
  | connectStatusError
  | connectStatusNull
  | unknown
deriving DecidableEq, Repr

/-- The mutable loop-local state of `run`: `connected_counter`,
`connecting_counter`, `restart_counter` and the `after_reboot` flag
(the spec calls them connected_repeat_count, connecting_repeat_count,
restart_count and pending_service_restart). -/
structure WatchdogState where
  connected_counter : Nat
  connecting_counter : Nat
  restart_counter : Nat
  after_reboot : Bool
deriving DecidableEq, Repr

/-- Outcome of querying the modem in a degraded cycle: either the
monitoring snapshot (ConnectionStatus and SignalIcon) was fetched, or a
`ResponseErrorException` was raised while connecting or querying. -/
inductive DeviceQuery where
  | ok (status : ConnectionStatus) (signal : Nat)
  | error
deriving DecidableEq, Repr

/-- Result of one poll cycle of the loop body: the updated state, the
`sleep_time` chosen for this cycle, whether
`restart_modem_and_wait_for_alive` was invoked, and whether the
service-restart pass over `RESTART_SERVICES` ran. -/
structure StepResult where
  state : WatchdogState
  sleep : Nat
  rebooted : Bool
  orchestrated : Bool
deriving DecidableEq, Repr

/-- The restart budget hardcoded in `run` (`max_restarts = 5`). -/
def maxRestarts : Nat := 5

/-- The reboot decision block, written out three times verbatim in `run`
(Connected with bad signal, Connecting repeated, and any other status):
below the budget it reboots, increments `restart_counter`, sets
`after_reboot` and sleeps 1 second; at the budget it resets
`restart_counter` to 0 and sleeps one hour without rebooting. -/
def rebootDecision (s : WatchdogState) : StepResult :=
  if s.restart_counter < maxRestarts then
    { state := { s with restart_counter := s.restart_counter + 1, after_reboot := true }
      sleep := 1
      rebooted := true
      orchestrated := false }
  else
    { state := { s with restart_counter := 0 }
      sleep := 60 * 60
      rebooted := false
      orchestrated := false }

/-- The degraded-path transition of `run` (the body of the
`if is_connection_error(...)` branch), given the outcome of the device
query. `ci` is `options.CHECK_INTERVAL`. -/
def degradedStep (ci : Nat) (s : WatchdogState) (q : DeviceQuery) : StepResult :=
  match q with
  | .error =>
    { state := s, sleep := 60 * 10, rebooted := false, orchestrated := false }
  | .ok status signal =>
    match status with
    | .connected =>
      if s.connected_counter = 0 then
        { state := { s with connected_counter := s.connected_counter + 1 }
          sleep := 60
          rebooted := false
          orchestrated := false }
      else if signal < 2 then
        rebootDecision { s with connected_counter := 0 }
      else
        { state := s, sleep := ci, rebooted := false, orchestrated := false }
    | .connecting =>
      if s.connecting_counter = 0 then
        { state := { s with connecting_counter := s.connecting_counter + 1 }
          sleep := 60 * 2
          rebooted := false
          orchestrated := false }
      else
        rebootDecision { s with connecting_counter := 0 }
    | _ => rebootDecision s

/-- The healthy-path transition of `run` (the `else` branch): all three
counters reset to 0, sleep is `CHECK_INTERVAL`, and if `after_reboot`
was set the service-restart pass runs once and the flag clears. -/
def healthyStep (ci : Nat) (s : WatchdogState) : StepResult :=
  let s1 : WatchdogState :=
    { s with connected_counter := 0, connecting_counter := 0, restart_counter := 0 }
  if s1.after_reboot then
    { state := { s1 with after_reboot := false }
      sleep := ci
      rebooted := false
      orchestrated := true }
  else
    { state := s1, sleep := ci, rebooted := false, orchestrated := false }

/-- Outcome of one `multi_ping` call, modelled from the spec (the module
`netkeeper.ext.multiping` has no source in the repository): either the
pair `(responses, no_responses)` partitioning the targets, or a raised
`MultiPingSocketError`. -/
inductive ProbeOutcome where
  | result (responses noResponses : List String)
  | socketError
deriving DecidableEq, Repr

/-- Embedding of `is_connection_error`: on a socket error it returns
True; otherwise it computes `(len(no_responses) / len(targets)) * 100`
and compares it strictly against the threshold. `none` models the
uncaught ZeroDivisionError Python raises when `targets` is empty
(only `MultiPingSocketError` is caught). -/
def isConnectionError (targets : List String) (threshold : Nat)
    (probe : ProbeOutcome) : Option Bool :=
  match probe with
  | .socketError => some true
  | .result _ noResponses =>
    if targets.length = 0 then none
    else
      some (decide (((noResponses.length : ℚ) / (targets.length : ℚ)) * 100
        > (threshold : ℚ)))

/-- One iteration of the main `while True` loop: probe and evaluate,
then run the degraded transition (with the device-query outcome `q`) or
the healthy transition. `none` models the uncaught ZeroDivisionError
propagating out of the loop. -/
def loopStep (targets : List String) (threshold ci : Nat) (s : WatchdogState)
    (probe : ProbeOutcome) (q : DeviceQuery) : Option StepResult :=
  match isConnectionError targets threshold probe with
  | none => none
  | some true => some (degradedStep ci s q)
  | some false => some (healthyStep ci s)

/-- States of the loop reachable from the initial state (all counters 0,
flag clear) under any sequence of healthy cycles and degraded cycles
with arbitrary device-query outcomes. -/
inductive Reachable (ci : Nat) : WatchdogState → Prop where
  | init : Reachable ci ⟨0, 0, 0, false⟩
  | healthy {s : WatchdogState} : Reachable ci s → Reachable ci (healthyStep ci s).state
  | degraded {s : WatchdogState} (q : DeviceQuery) :
      Reachable ci s → Reachable ci (degradedStep ci s q).state

/-- Iterating the healthy-path transition `n` times from `s`. -/
def iterHealthy (ci : Nat) (s : WatchdogState) : Nat → WatchdogState
  | 0 => s
  | n + 1 => (healthyStep ci (iterHealthy ci s n)).state

/-- Helper: a healthy cycle always leaves the fully reset state (the
three counters are zeroed, and the pending flag is either already false
or cleared by the orchestrator branch). -/
theorem healthyStep_state (ci : Nat) (s : WatchdogState) :
    (healthyStep ci s).state = ⟨0, 0, 0, false⟩ := by
  obtain ⟨a, b, c, d⟩ := s
  cases d <;> simp [healthyStep]

/-- Helper: the reboot decision never touches the two repeat counters. -/
theorem rebootDecision_state_counters (s : WatchdogState) :
    (rebootDecision s).state.connected_counter = s.connected_counter ∧
    (rebootDecision s).state.connecting_counter = s.connecting_counter := by
  unfold rebootDecision
  split <;> simp

/-- Helper: the degraded transition keeps both repeat counters at most 1
when they start at most 1. -/
theorem degradedStep_counters_le (ci : Nat) (t : WatchdogState) (q : DeviceQuery)
    (h1 : t.connected_counter ≤ 1) (h2 : t.connecting_counter ≤ 1) :
    (degradedStep ci t q).state.connected_counter ≤ 1 ∧
    (degradedStep ci t q).state.connecting_counter ≤ 1 := by
  have hother : ∀ u : WatchdogState, u.connected_counter ≤ 1 → u.connecting_counter ≤ 1 →
      (rebootDecision u).state.connected_counter ≤ 1 ∧
      (rebootDecision u).state.connecting_counter ≤ 1 := by
    intro u hu1 hu2
    obtain ⟨hA, hB⟩ := rebootDecision_state_counters u
    rw [hA, hB]
    exact ⟨hu1, hu2⟩
  cases q with
  | error => exact ⟨h1, h2⟩
  | ok st sig =>
    cases st with
    | connected =>
      simp only [degradedStep]
      split_ifs with h0 hsig
      · constructor
        · show t.connected_counter + 1 ≤ 1
          omega
        · exact h2
      · exact hother _ (Nat.zero_le 1) (by exact h2)
      · exact ⟨h1, h2⟩
    | connecting =>
      simp only [degradedStep]
      split_ifs with h0
      · constructor
        · exact h1
        · show t.connecting_counter + 1 ≤ 1
          omega
      · exact hother _ (by exact h1) (Nat.zero_le 1)
    | disconnected => exact hother t h1 h2
    | disconnecting => exact hother t h1 h2
    | connectFailed => exact hother t h1 h2
    | connectStatusError => exact hother t h1 h2
    | connectStatusNull => exact hother t h1 h2
    | unknown => exact hother t h1 h2

/-- C1: on a degraded cycle whose device query succeeds with a status
outside Connected and Connecting, the transition goes directly to the
reboot decision whatever the repeat counters hold: below the restart
budget it reboots, increments `restart_counter`, sets the pending
service-restart flag and sleeps 1 second; at the budget it does not
reboot, resets `restart_counter` to 0 and sleeps one hour. -/
theorem escalating_status_transition (ci : Nat) (s : WatchdogState)
    (st : ConnectionStatus) (sig : Nat)
    (h1 : st ≠ ConnectionStatus.connected) (h2 : st ≠ ConnectionStatus.connecting) :
    degradedStep ci s (DeviceQuery.ok st sig) = rebootDecision s ∧
    (s.restart_counter < 5 →
      degradedStep ci s (DeviceQuery.ok st sig) =
        { state := { s with restart_counter := s.restart_counter + 1, after_reboot := true }
          sleep := 1
          rebooted := true
          orchestrated := false }) ∧
    (s.restart_counter = 5 →
      degradedStep ci s (DeviceQuery.ok st sig) =
        { state := { s with restart_counter := 0 }
          sleep := 3600
          rebooted := false
          orchestrated := false }) := by
  have hdir : degradedStep ci s (DeviceQuery.ok st sig) = rebootDecision s := by
    cases st <;> simp_all [degradedStep]
  refine ⟨hdir, ?_, ?_⟩
  · intro hlt
    rw [hdir]
    simp [rebootDecision, maxRestarts, hlt]
  · intro heq
    rw [hdir]
    simp [rebootDecision, maxRestarts, heq]

/-- Closed instance of C1: at the restart budget with a Disconnected
status, no reboot happens, the budget resets to 0 and the sleep is one
hour. -/
theorem escalating_status_transition_witness :
    degradedStep 60 ⟨2, 0, 5, false⟩ (DeviceQuery.ok ConnectionStatus.disconnected 3) =
      { state := ⟨2, 0, 0, false⟩, sleep := 3600, rebooted := false, orchestrated := false } := by
  have h := escalating_status_transition 60 ⟨2, 0, 5, false⟩
    ConnectionStatus.disconnected 3 (by decide) (by decide)
  exact h.2.2 rfl

/-- C2: on a degraded cycle with status Connected, a first observation
(`connected_counter = 0`) just sets the counter to 1 and sleeps 60
seconds; a repeated observation with signal below 2 resets the counter
and takes the reboot decision; a repeated observation with signal at
least 2 changes nothing and sleeps the normal poll interval. -/
theorem connected_status_transition (ci : Nat) (s : WatchdogState) (sig : Nat) :
    (s.connected_counter = 0 →
      degradedStep ci s (DeviceQuery.ok ConnectionStatus.connected sig) =
        { state := { s with connected_counter := 1 }
          sleep := 60
          rebooted := false
          orchestrated := false }) ∧
    (s.connected_counter ≠ 0 → sig < 2 →
      degradedStep ci s (DeviceQuery.ok ConnectionStatus.connected sig) =
        rebootDecision { s with connected_counter := 0 }) ∧
    (s.connected_counter ≠ 0 → 2 ≤ sig →
      degradedStep ci s (DeviceQuery.ok ConnectionStatus.connected sig) =
        { state := s, sleep := ci, rebooted := false, orchestrated := false }) := by
  refine ⟨?_, ?_, ?_⟩
  · intro h0
    simp [degradedStep, h0]
  · intro hne hsig
    simp [degradedStep, if_neg hne, hsig]
  · intro hne hsig
    simp [degradedStep, if_neg hne, Nat.not_lt.mpr hsig]

/-- Closed instance of C2: from `connected_counter = 1`, signal 1 and
`restart_counter = 0`, the transition reboots, `restart_counter`
becomes 1 and `connected_counter` resets to 0. -/
theorem connected_status_transition_witness :
    degradedStep 60 ⟨1, 0, 0, false⟩ (DeviceQuery.ok ConnectionStatus.connected 1) =
      { state := ⟨0, 0, 1, true⟩, sleep := 1, rebooted := true, orchestrated := false } := by
  have h := (connected_status_transition 60 ⟨1, 0, 0, false⟩ 1).2.1
    (by decide) (by decide)
  rw [h]
  rfl

/-- C3: a healthy cycle resets all three counters to 0 and sleeps the
normal poll interval; the orchestrator pass runs exactly when the
pending flag was set, and the flag is clear afterwards, so a second
consecutive healthy cycle runs no pass; any positive number of
consecutive healthy cycles leaves the state fully reset. -/
theorem healthy_cycle_transition (ci : Nat) (s : WatchdogState) :
    (healthyStep ci s).state = ⟨0, 0, 0, false⟩ ∧
    (healthyStep ci s).sleep = ci ∧
    (healthyStep ci s).orchestrated = s.after_reboot ∧
    (healthyStep ci ((healthyStep ci s).state)).orchestrated = false ∧
    (∀ n : Nat, iterHealthy ci s (n + 1) = ⟨0, 0, 0, false⟩) := by
  obtain ⟨a, b, c, d⟩ := s
  have hstate : ∀ t : WatchdogState, (healthyStep ci t).state = ⟨0, 0, 0, false⟩ := by
    intro t
    obtain ⟨ta, tb, tc, td⟩ := t
    cases td <;> simp [healthyStep]
  refine ⟨hstate _, ?_, ?_, ?_, ?_⟩
  · cases d <;> simp [healthyStep]
  · cases d <;> simp [healthyStep]
  · rw [hstate]
    simp [healthyStep]
  · intro n
    induction n with
    | zero => exact hstate _
    | succ m ih =>
      show (healthyStep ci (iterHealthy ci ⟨a, b, c, d⟩ (m + 1))).state = _
      rw [ih]
      exact hstate _

/-- C7: on a degraded cycle whose device query raises, the state is
returned unchanged — in particular `restart_counter` is untouched — no
reboot or orchestration happens, and the sleep is 10 minutes. -/
theorem device_query_failure_frame (ci : Nat) (s : WatchdogState) :
    degradedStep ci s DeviceQuery.error =
      { state := s, sleep := 600, rebooted := false, orchestrated := false } := by
  rfl

/-- C10: a transport-level probe failure (socket error raised by
`multi_ping`) makes the health evaluator report degraded, and the loop
iteration then behaves exactly as the plain degraded transition on the
current state: the failure handling itself mutates no field. -/
theorem probe_transport_error_fail_safe (targets : List String)
    (threshold ci : Nat) (s : WatchdogState) (q : DeviceQuery) :
    isConnectionError targets threshold ProbeOutcome.socketError = some true ∧
    loopStep targets threshold ci s ProbeOutcome.socketError q =
      some (degradedStep ci s q) := by
  exact ⟨rfl, rfl⟩

/-- C5 (amended): in every reachable state of the loop, each of the two
repeat counters is at most 1; they are not mutually exclusive, since the
code resets only the counter of the status it observes. -/
theorem repeat_counters_at_most_one (ci : Nat) (s : WatchdogState)
    (h : Reachable ci s) :
    s.connected_counter ≤ 1 ∧ s.connecting_counter ≤ 1 := by
  induction h with
  | init => exact ⟨Nat.zero_le 1, Nat.zero_le 1⟩
  | healthy hr ih =>
    rw [healthyStep_state]
    exact ⟨Nat.zero_le 1, Nat.zero_le 1⟩
  | degraded q hr ih => exact degradedStep_counters_le ci _ q ih.1 ih.2

/-- Closed instance of the amended C5 at the initial state. -/
theorem repeat_counters_at_most_one_witness :
    (⟨0, 0, 0, false⟩ : WatchdogState).connected_counter ≤ 1 ∧
    (⟨0, 0, 0, false⟩ : WatchdogState).connecting_counter ≤ 1 :=
  repeat_counters_at_most_one 60 ⟨0, 0, 0, false⟩ Reachable.init

/-- C5 as stated is false: after a degraded cycle observing Connected
followed by a degraded cycle observing Connecting, the reachable state
has both repeat counters equal to 1. -/
theorem repeat_counters_not_exclusive_cex :
    ¬ (∀ s : WatchdogState, Reachable 60 s →
        s.connected_counter = 0 ∨ s.connecting_counter = 0) := by
  intro hall
  have hreach : Reachable 60 ⟨1, 1, 0, false⟩ := by
    have e : (degradedStep 60 (degradedStep 60 ⟨0, 0, 0, false⟩
        (DeviceQuery.ok ConnectionStatus.connected 3)).state
        (DeviceQuery.ok ConnectionStatus.connecting 3)).state
        = (⟨1, 1, 0, false⟩ : WatchdogState) := by rfl
    rw [← e]
    exact Reachable.degraded _ (Reachable.degraded _ Reachable.init)
  have hcontra := hall ⟨1, 1, 0, false⟩ hreach
  have : ¬ ((⟨1, 1, 0, false⟩ : WatchdogState).connected_counter = 0 ∨
      (⟨1, 1, 0, false⟩ : WatchdogState).connecting_counter = 0) := by decide
  exact this hcontra

/-- C4: on a non-empty target list, with the probe outcome partitioning
the targets into responding and non-responding ones, the evaluator
returns degraded exactly when the unreachable percentage strictly
exceeds the threshold; a rate exactly at the threshold is healthy. -/
theorem health_evaluator_strict_threshold (targets responses noResponses : List String)
    (threshold : Nat) (hne : targets ≠ [])
    (hpart : responses.length + noResponses.length = targets.length) :
    isConnectionError targets threshold (ProbeOutcome.result responses noResponses) =
      some (decide (((noResponses.length : ℚ) /
        ((noResponses.length : ℚ) + (responses.length : ℚ))) * 100 > (threshold : ℚ))) ∧
    (((noResponses.length : ℚ) /
        ((noResponses.length : ℚ) + (responses.length : ℚ))) * 100 = (threshold : ℚ) →
      isConnectionError targets threshold (ProbeOutcome.result responses noResponses) =
        some false) := by
  have hlen : targets.length ≠ 0 := fun h => hne (List.length_eq_zero.mp h)
  have hcast : (targets.length : ℚ) = (noResponses.length : ℚ) + (responses.length : ℚ) := by
    rw [← hpart]
    push_cast
    ring
  have hmain : isConnectionError targets threshold (ProbeOutcome.result responses noResponses) =
      some (decide (((noResponses.length : ℚ) /
        ((noResponses.length : ℚ) + (responses.length : ℚ))) * 100 > (threshold : ℚ))) := by
    simp only [isConnectionError, if_neg hlen, hcast]
  refine ⟨hmain, fun heq => ?_⟩
  rw [hmain, heq]
  simp

/-- Closed instance of C4 at the boundary: two targets of which one is
unreachable against a threshold of 50 gives an error rate of exactly
50, which is healthy. -/
theorem health_evaluator_strict_threshold_witness :
    isConnectionError ["a", "b"] 50 (ProbeOutcome.result ["a"] ["b"]) = some false := by
  have h := (health_evaluator_strict_threshold ["a", "b"] ["a"] ["b"] 50
    (by decide) (by decide)).2
  apply h
  norm_num

/-- Oracle for systemctl behavior: whether `systemctl is-enabled`,
`systemctl is-active` and `systemctl restart` exit with code 0 for a
given unit. -/
structure Systemd where
  isEnabledExit0 : String → Bool
  isActiveExit0 : String → Bool
  restartExit0 : String → Bool

/-- Embedding of `call_systemd`: run systemctl with the given argument
on the unit and report whether it exited with code 0. -/
def call_systemd (sd : Systemd) (service_name argument : String) : Bool :=
  if argument = "is-enabled" then sd.isEnabledExit0 service_name
  else if argument = "is-active" then sd.isActiveExit0 service_name
  else if argument = "restart" then sd.restartExit0 service_name
  else false

/-- Embedding of `is_service_active`: the source passes the argument
`is-enabled` to systemctl, not `is-active`. -/
def is_service_active (sd : Systemd) (service_name : String) : Bool :=
  call_systemd sd service_name "is-enabled"

/-- Embedding of `is_service_enabled`. -/
def is_service_enabled (sd : Systemd) (service_name : String) : Bool :=
  call_systemd sd service_name "is-enabled"

/-- Embedding of `restart_service`. -/
def restart_service (sd : Systemd) (service_name : String) : Bool :=
  call_systemd sd service_name "restart"

/-- The service-restart pass in the healthy branch of `run`: for each
configured service, if `is_service_active` or `is_service_enabled`
reports true, issue a restart. It returns the restarted services paired
with the exit status of each restart; a false entry (failed restart)
does not stop the pass. -/
def orchestratorPass (sd : Systemd) (services : List String) : List (String × Bool) :=
  services.filterMap (fun service =>
    if is_service_active sd service || is_service_enabled sd service then
      some (service, restart_service sd service)
    else none)

/-- A systemd world where every unit is active but none is enabled and
every restart would succeed. -/
def sdActiveNotEnabled : Systemd :=
  { isEnabledExit0 := fun _ => false
    isActiveExit0 := fun _ => true
    restartExit0 := fun _ => true }

/-- A systemd world where every unit is enabled and active but the
restart of the unit svc-a fails. -/
def sdFirstRestartFails : Systemd :=
  { isEnabledExit0 := fun _ => true
    isActiveExit0 := fun _ => true
    restartExit0 := fun s => if s = "svc-a" then false else true }

/-- C6 evaluated on the code: a unit that is active but not enabled is
never restarted, because `is_service_active` queries `is-enabled`
(both disjuncts collapse to the enabled check); and a failed restart of
one unit does not prevent the remaining units from being processed. -/
theorem orchestrator_skips_active_service :
    sdActiveNotEnabled.isActiveExit0 "openvpn@client" = true ∧
    orchestratorPass sdActiveNotEnabled ["openvpn@client"] = [] ∧
    orchestratorPass sdFirstRestartFails ["svc-a", "svc-b"] =
      [("svc-a", false), ("svc-b", true)] :=
  ⟨rfl, rfl, rfl⟩

/-- Trace of one `restart_modem_and_wait_for_alive` call: how many
reboot commands were issued, the sleeps performed in order, and the
index of the first successful status fetch when the wait ends within
the modelled number of attempts. -/
structure RebootWaitTrace where
  reboots : Nat
  sleeps : List Nat
  result : Option Nat
deriving DecidableEq, Repr

/-- The retry loop of `restart_modem_and_wait_for_alive`, driven by an
oracle `ok` telling which reload-and-status attempts succeed, with
`fuel` bounding how many attempts are unfolded (the source loop itself
has no bound). Returns the index of the first successful attempt, if
reached, together with the 20-second sleeps done after failed
attempts. -/
def rebootWaitAttempts (ok : Nat → Bool) : Nat → Nat → Option Nat × List Nat
  | 0, _ => (none, [])
  | fuel + 1, k =>
    if ok k then (some k, [])
    else
      let r := rebootWaitAttempts ok fuel (k + 1)
      (r.1, 20 :: r.2)

/-- Embedding of `restart_modem_and_wait_for_alive`: one reboot command,
one fixed 20-second settle sleep, then the retry loop. -/
def rebootWaitRun (ok : Nat → Bool) (fuel : Nat) : RebootWaitTrace :=
  let r := rebootWaitAttempts ok fuel 0
  { reboots := 1, sleeps := 20 :: r.2, result := r.1 }

/-- Helper: when every unfolded attempt fails, the retry loop is still
running — no result, one 20-second sleep per failed attempt. -/
theorem rebootWaitAttempts_all_fail (ok : Nat → Bool) :
    ∀ fuel k, (∀ j, k ≤ j → j < k + fuel → ok j = false) →
      rebootWaitAttempts ok fuel k = (none, List.replicate fuel 20) := by
  intro fuel
  induction fuel with
  | zero => intro k _; rfl
  | succ m ih =>
    intro k h
    have hk : ok k = false := h k (Nat.le_refl k) (by omega)
    have hr := ih (k + 1) (fun j hj1 hj2 => h j (by omega) (by omega))
    simp [rebootWaitAttempts, hk, hr, List.replicate_succ]

/-- Helper: the retry loop returns at the first successful attempt,
after one 20-second sleep per preceding failed attempt. -/
theorem rebootWaitAttempts_first_success (ok : Nat → Bool) :
    ∀ fuel k d, d < fuel → ok (k + d) = true →
      (∀ j, k ≤ j → j < k + d → ok j = false) →
      rebootWaitAttempts ok fuel k = (some (k + d), List.replicate d 20) := by
  intro fuel
  induction fuel with
  | zero => intro k d hlt _ _; omega
  | succ m ih =>
    intro k d hlt hok hfail
    cases d with
    | zero =>
      simp only [Nat.add_zero] at hok
      simp [rebootWaitAttempts, hok]
    | succ e =>
      have hk : ok k = false := hfail k (Nat.le_refl k) (by omega)
      have hok1 : ok (k + 1 + e) = true := by
        rw [show k + 1 + e = k + (e + 1) from by omega]
        exact hok
      have hr := ih (k + 1) e (by omega) hok1
        (fun j hj1 hj2 => hfail j (by omega) (by omega))
      simp [rebootWaitAttempts, hk, hr, List.replicate_succ,
        show k + 1 + e = k + (e + 1) from by omega]

/-- Helper: any result the retry loop returns is a successful attempt
preceded only by failed ones. -/
theorem rebootWaitAttempts_success_sound (ok : Nat → Bool) :
    ∀ fuel k r, (rebootWaitAttempts ok fuel k).1 = some r →
      ok r = true ∧ k ≤ r ∧ ∀ j, k ≤ j → j < r → ok j = false := by
  intro fuel
  induction fuel with
  | zero => intro k r h; simp [rebootWaitAttempts] at h
  | succ m ih =>
    intro k r h
    by_cases hk : ok k = true
    · simp [rebootWaitAttempts, hk] at h
      subst h
      exact ⟨hk, Nat.le_refl _, fun j hj1 hj2 => absurd hj2 (by omega)⟩
    · have hk2 : ok k = false := by
        simpa using hk
      simp [rebootWaitAttempts, hk2] at h
      obtain ⟨h1, h2, h3⟩ := ih (k + 1) r h
      refine ⟨h1, by omega, fun j hj1 hj2 => ?_⟩
      rcases Nat.eq_or_lt_of_le hj1 with he | hlt
      · rw [← he]
        exact hk2
      · exact h3 j (by omega) hj2

/-- C8: the reboot-wait protocol issues exactly one reboot command and
one 20-second settle sleep; if the first `fuel` attempts all fail it is
still retrying with a 20-second sleep after each failure, for every
`fuel`; it returns exactly at the first successful attempt, having
slept 20 seconds per failed attempt before it; and any returned attempt
index is a success preceded only by failures. -/
theorem reboot_wait_protocol (ok : Nat → Bool) (fuel : Nat) :
    (rebootWaitRun ok fuel).reboots = 1 ∧
    ((∀ j, j < fuel → ok j = false) →
      (rebootWaitRun ok fuel).result = none ∧
      (rebootWaitRun ok fuel).sleeps = 20 :: List.replicate fuel 20) ∧
    (∀ k, k < fuel → ok k = true → (∀ j, j < k → ok j = false) →
      (rebootWaitRun ok fuel).result = some k ∧
      (rebootWaitRun ok fuel).sleeps = 20 :: List.replicate k 20) ∧
    (∀ k, (rebootWaitRun ok fuel).result = some k →
      ok k = true ∧ ∀ j, j < k → ok j = false) := by
  refine ⟨rfl, ?_, ?_, ?_⟩
  · intro h
    have ha := rebootWaitAttempts_all_fail ok fuel 0 (fun j hj1 hj2 => h j (by omega))
    constructor
    · show (rebootWaitAttempts ok fuel 0).1 = none
      rw [ha]
    · show 20 :: (rebootWaitAttempts ok fuel 0).2 = _
      rw [ha]
  · intro k hk hok hfail
    have ha := rebootWaitAttempts_first_success ok fuel 0 k hk
      (by simpa using hok) (fun j hj1 hj2 => hfail j (by omega))
    constructor
    · show (rebootWaitAttempts ok fuel 0).1 = some k
      rw [ha]
      simp
    · show 20 :: (rebootWaitAttempts ok fuel 0).2 = _
      rw [ha]
  · intro k h
    have h1 : (rebootWaitAttempts ok fuel 0).1 = some k := h
    obtain ⟨ha, _, hc⟩ := rebootWaitAttempts_success_sound ok fuel 0 k h1
    exact ⟨ha, fun j hj => hc j (Nat.zero_le j) hj⟩

/-- Closed instance of C8: with attempts 0 and 1 failing and attempt 2
succeeding, the protocol returns at attempt 2 after the settle sleep
plus two retry sleeps. -/
theorem reboot_wait_protocol_witness :
    (rebootWaitRun (fun k => decide (k = 2)) 5).result = some 2 ∧
    (rebootWaitRun (fun k => decide (k = 2)) 5).sleeps = 20 :: List.replicate 2 20 :=
  (reboot_wait_protocol (fun k => decide (k = 2)) 5).2.2.1 2 (by decide) (by decide)
    (by decide)

/-- A configuration value as loaded from YAML, restricted to the two
shapes the netkeeper configuration attributes use. -/
inductive ConfigValue where
  | strList (xs : List String)
  | nat (n : Nat)
deriving DecidableEq, Repr

/-- The configuration attributes `run` reads, per `netkeeper/config.py`. -/
structure NKConfig where
  TARGETS : List String
  TARGETS_FAIL_THRESHOLD : Nat
  RESTART_SERVICES : List String
  CHECK_INTERVAL : Nat
deriving DecidableEq, Repr

/-- The defaults of the development `Config` class in
`netkeeper/config.py`. -/
def defaultConfig : NKConfig :=
  { TARGETS := ["google.com", "8.8.8.8", "salamek.cz"]
    TARGETS_FAIL_THRESHOLD := 50
    RESTART_SERVICES := ["openvpn@client"]
    CHECK_INTERVAL := 60 }

/-- One YAML file as consumed by `get_config`: either it parses to a
dict (a list of key-value settings) or to something else, in which case
`get_config` raises. -/
inductive YamlData where
  | dict (entries : List (String × ConfigValue))
  | other
deriving DecidableEq, Repr

/-- Python setattr on the config object for the attributes `run` reads;
any other key or value shape sets an attribute `run` never reads, which
leaves this projection of the config unchanged. -/
def setConfigAttr (c : NKConfig) (kv : String × ConfigValue) : NKConfig :=
  match kv with
  | ("TARGETS", ConfigValue.strList xs) => { c with TARGETS := xs }
  | ("TARGETS_FAIL_THRESHOLD", ConfigValue.nat n) => { c with TARGETS_FAIL_THRESHOLD := n }
  | ("RESTART_SERVICES", ConfigValue.strList xs) => { c with RESTART_SERVICES := xs }
  | ("CHECK_INTERVAL", ConfigValue.nat n) => { c with CHECK_INTERVAL := n }
  | _ => c

/-- The dict accumulated by the file loop in `get_config`: the entries
of each file that parses to a dict, in file order, failing if any file
parses to something else. -/
def collectDicts : List YamlData → Option (List (String × ConfigValue))
  | [] => some []
  | YamlData.dict es :: rest => (collectDicts rest).map (fun r => es ++ r)
  | YamlData.other :: _ => none

/-- Embedding of `get_config`: it raises when no configuration file was
found, raises when a file does not parse to a dict, and otherwise sets
each loaded key on the config object; `none` models the raised
exception. No validation of the loaded values happens. -/
def get_config (defaults : NKConfig) (yaml_files : List YamlData) : Option NKConfig :=
  if yaml_files = [] then none
  else
    match collectDicts yaml_files with
    | none => none
    | some entries => some (entries.foldl setConfigAttr defaults)

/-- Helper: when every file parses to a dict, collection succeeds. -/
theorem collectDicts_all_dict (files : List YamlData)
    (h : ∀ f ∈ files, ∃ es, f = YamlData.dict es) :
    ∃ entries, collectDicts files = some entries := by
  induction files with
  | nil => exact ⟨[], rfl⟩
  | cons f rest ih =>
    obtain ⟨es, hf⟩ := h f (List.mem_cons_self _ _)
    obtain ⟨r, hr⟩ := ih (fun g hg => h g (List.mem_cons_of_mem _ hg))
    subst hf
    exact ⟨es ++ r, by simp [collectDicts, hr]⟩

/-- C9 as stated is false: startup accepts a configuration whose
TARGETS list is empty (no configuration error is raised before the
loop), and the health evaluator is then invoked on the empty target
list, where its error-rate computation divides by zero (an uncaught
exception inside the poll loop, not a startup failure). -/
theorem empty_targets_pass_startup_cex :
    get_config defaultConfig [YamlData.dict [("TARGETS", ConfigValue.strList [])]] =
      some { defaultConfig with TARGETS := [] } ∧
    isConnectionError [] 50 (ProbeOutcome.result [] []) = none :=
  ⟨rfl, rfl⟩

/-- C9 (amended): configuration loading fails only when no file is
found or a file does not parse to a dict; it performs no validation of
the target list, so an empty target list survives startup and the
evaluator raises a division-by-zero on it during the first poll
cycle. -/
theorem config_load_no_target_validation (defaults : NKConfig) (files : List YamlData)
    (threshold : Nat) (responses noResponses : List String)
    (hne : files ≠ [])
    (hdict : ∀ f ∈ files, ∃ es, f = YamlData.dict es) :
    (∃ c, get_config defaults files = some c) ∧
    isConnectionError [] threshold (ProbeOutcome.result responses noResponses) = none := by
  constructor
  · obtain ⟨entries, he⟩ := collectDicts_all_dict files hdict
    refine ⟨entries.foldl setConfigAttr defaults, ?_⟩
    unfold get_config
    rw [if_neg hne, he]
  · rfl

/-- Closed instance of the amended C9: a single empty-dict file loads
fine, and the evaluator on an empty target list raises. -/
theorem config_load_no_target_validation_witness :
    (∃ c, get_config defaultConfig [YamlData.dict []] = some c) ∧
    isConnectionError [] 50 (ProbeOutcome.result [] []) = none :=
  config_load_no_target_validation defaultConfig [YamlData.dict []] 50 [] []
    (List.cons_ne_nil _ _)
    (by
      intro f hf
      rw [List.mem_singleton] at hf
      exact ⟨[], hf⟩)

end Netkeeper
